import Mathlib

/-!
Verification of the AppStream XML serialization/deserialization core
(`src/as-xmldata.c`) against its natural-language specification.

The C file is shallowly embedded: XML trees become an inductive type,
the mutable `AsXMLDataPrivate` instance state becomes an explicit record
threaded through every function, and fallible parses return `Except` /
`Option`.  External collaborators (libxml2 tree primitives, GLib string
utilities, the `AsComponent` domain-object setters, the enum
string-lookup tables from `as-enums.c`) are either modelled from the
spec (marked in their doc comments) or passed in as an explicit
`AsExternals` record of oracle functions, since their code is not part
of the file under verification.
-/

/-- Modelled from the spec: an XML tree node as provided by the external
DOM library.  An element carries a name, an attribute map and an ordered
child list; a text node carries its character data.  Attribute maps are
association lists looked up front-to-back, matching `xmlGetProp`. -/
inductive XNode : Type where
  | elem (name : String) (attrs : List (String × String)) (children : List XNode) : XNode
  | text (s : String) : XNode

/-- Name of a node; libxml2 reports the pseudo-name "text" for text nodes. -/
def XNode.name : XNode → String
  | .elem n _ _ => n
  | .text _ => "text"

/-- Whether the node is an element node (`iter->type == XML_ELEMENT_NODE`). -/
def XNode.isElem : XNode → Bool
  | .elem _ _ _ => true
  | .text _ => false

/-- Attribute list of a node (empty for text nodes). -/
def XNode.attrs : XNode → List (String × String)
  | .elem _ a _ => a
  | .text _ => []

/-- Child list of a node (empty for text nodes). -/
def XNode.children : XNode → List XNode
  | .elem _ _ c => c
  | .text _ => []

/-- First-match association-list lookup. -/
def lookupA {κ β : Type} [DecidableEq κ] : List (κ × β) → κ → Option β
  | [], _ => none
  | (k', v) :: rest, k => if k' = k then some v else lookupA rest k

/-- Overwrite-or-insert into an association list (models hash-table
insertion with one value per key). -/
def setAssoc {κ β : Type} [DecidableEq κ] : List (κ × β) → κ → β → List (κ × β)
  | [], k, v => [(k, v)]
  | (k', v') :: rest, k, v => if k' = k then (k, v) :: rest else (k', v') :: setAssoc rest k v

/-- Modelled from the spec: `xmlGetProp`, reading an attribute of a node;
`none` models a NULL return for an absent attribute. -/
def xmlGetProp (node : XNode) (name : String) : Option String :=
  lookupA node.attrs name

mutual

/-- Modelled from the spec: `xmlNodeGetContent` — the concatenated text
content of a node and its descendants.  For element and text nodes this
is never NULL, so it is total here. -/
def xmlNodeGetContent : XNode → String
  | .text s => s
  | .elem _ _ cs => xmlContentList cs

/-- Concatenated text content of a node list (helper of `xmlNodeGetContent`). -/
def xmlContentList : List XNode → String
  | [] => ""
  | c :: cs => xmlNodeGetContent c ++ xmlContentList cs

end

mutual

/-- Modelled from the spec: `xmlNodeDump` — serialize one node back to
markup text.  Attributes and element tags are emitted in order; the
exact whitespace conventions of libxml2 are irrelevant to the claims. -/
def xmlNodeDumpStr : XNode → String
  | .text s => s
  | .elem n a cs =>
      "<" ++ n ++ xmlAttrsDump a ++ ">" ++ xmlNodeListDump cs ++ "</" ++ n ++ ">"

/-- Attribute serialization (helper of `xmlNodeDumpStr`). -/
def xmlAttrsDump : List (String × String) → String
  | [] => ""
  | (k, v) :: rest => " " ++ k ++ "=" ++ "\"" ++ v ++ "\"" ++ xmlAttrsDump rest

/-- Node-list serialization (helper of `xmlNodeDumpStr`). -/
def xmlNodeListDump : List XNode → String
  | [] => ""
  | c :: cs => xmlNodeDumpStr c ++ xmlNodeListDump cs

end

/-- Helper: digit run accumulator for the strtoll models. -/
def parseDigitsAux : List Char → Int → Int
  | [], acc => acc
  | c :: cs, acc =>
      if c.isDigit then parseDigitsAux cs (acc * 10 + ((c.toNat : Int) - 48)) else acc

/-- Sign-and-digits parse shared by the strtoll/strtoull models. -/
def parseIntRaw (s : String) : Int :=
  let cs := s.data.dropWhile (·.isWhitespace)
  match cs with
  | [] => 0
  | c :: rest =>
      if c = '-' then -(parseDigitsAux rest 0)
      else if c = '+' then parseDigitsAux rest 0
      else parseDigitsAux cs 0

/-- Clamp to the value range of a 64-bit signed integer. -/
def clampInt64 (i : Int) : Int :=
  max (-(2 ^ 63)) (min i (2 ^ 63 - 1))

/-- Modelled from the spec: `g_ascii_strtoll(s, NULL, 10)` — leading
whitespace and an optional sign are accepted, the longest digit run is
converted, anything else yields 0; out-of-range values clamp. -/
def g_ascii_strtoll (s : String) : Int :=
  clampInt64 (parseIntRaw s)

/-- Reduction of a signed value to the unsigned 64-bit range, modelling
storage of a `gint64` into a `guint64`. -/
def toGUInt64 (i : Int) : Nat :=
  (i % (2 : Int) ^ 64).toNat

/-- Modelled from the spec: `g_ascii_strtoull(s, NULL, 10)` (only its
behaviour on in-range non-negative inputs matters to the claims). -/
def g_ascii_strtoull (s : String) : Nat :=
  toGUInt64 (parseIntRaw s)

/-- Modelled from the spec: `g_build_filename(base, rel, NULL)` joins the
media base URL with a relative reference using a path separator. -/
def g_build_filename (base rel : String) : String :=
  base ++ "/" ++ rel

/-- Modelled from the spec: `as_str_empty` — true for NULL or "" values
(NULL strings are represented as ""). -/
def as_str_empty (s : String) : Bool :=
  s.isEmpty

/-- Modelled from the spec: `g_strstrip` — remove leading and trailing
whitespace in place (`g_ascii_isspace` also accepts `\f`/`\v`, which
`Char.isWhitespace` omits; no claim depends on those). -/
def g_strstrip (s : String) : String :=
  String.mk (((s.data.dropWhile Char.isWhitespace).reverse.dropWhile Char.isWhitespace).reverse)

/-- The parser/serializer dialect (`AsParserMode`). -/
inductive AsParserMode : Type where
  | upstream
  | distro
deriving DecidableEq

/-- The mutable per-instance state of `AsXMLData` (`AsXMLDataPrivate`). -/
structure AsXMLDataPriv where
  locale : String := "C"
  locale_short : String := "C"
  origin : Option String := none
  media_baseurl : Option String := none
  default_priority : Int := 0
  mode : AsParserMode := .upstream
deriving DecidableEq

/-- The short form of a locale: the text before the first underscore,
as computed by `g_strsplit (locale, "_", 0)` taking the first token.
(For the empty locale glib yields a NULL token; an empty short form is
observationally equivalent in `as_xmldata_get_node_locale`.) -/
def localeShortOf (locale : String) : String :=
  (locale.splitOn "_").headD ""

/-- `as_xmldata_initialize`: configure locale (with derived short form),
origin, media base URL and default priority on the instance state. -/
def as_xmldata_init_ctx (ctx : AsXMLDataPriv) (locale : String)
    (origin media_baseurl : Option String) (priority : Int) : AsXMLDataPriv :=
  { ctx with
    locale := locale
    locale_short := localeShortOf locale
    origin := origin
    media_baseurl := media_baseurl
    default_priority := priority }

/-- `as_xmldata_get_node_value`: the text content of a node. -/
def as_xmldata_get_node_value (node : XNode) : String :=
  xmlNodeGetContent node

/-- `as_xmldata_get_node_locale`: the locale key under which a node is
filed, or `none` when the node must be skipped for the active locale. -/
def as_xmldata_get_node_locale (ctx : AsXMLDataPriv) (node : XNode) : Option String :=
  match xmlGetProp node "lang" with
  | none => some "C"
  | some lang =>
      if ctx.locale = "ALL" then some lang
      else if lang = ctx.locale then some lang
      else if lang = ctx.locale_short then some ctx.locale
      else none

/-- The locale resolver as the spec words it (claim C1): "C" when the
node has no lang attribute; the node's own tag when the active locale is
the sentinel "ALL"; the active-locale key on an exact match; the full
active-locale key when the tag equals the short form; `none` otherwise. -/
def localeResolverSpec (locale : String) (lang : Option String) : Option String :=
  match lang with
  | none => some "C"
  | some l =>
      if locale = "ALL" then some l
      else if l = locale then some locale
      else if l = localeShortOf locale then some locale
      else none

/-- Modelled from the spec: image kinds (`source` | `thumbnail`). -/
inductive AsImageKind : Type where
  | source
  | thumbnail
deriving DecidableEq

/-- Modelled from the spec: screenshot kinds (`default` | `normal`). -/
inductive AsScreenshotKind : Type where
  | normal
  | default
deriving DecidableEq

/-- Modelled from the spec: release urgency kinds (external enum). -/
inductive AsUrgencyKind : Type where
  | unknown
  | low
  | medium
  | high
  | critical
deriving DecidableEq

/-- Modelled from the spec: checksum kinds with a "none" sentinel. -/
inductive AsChecksumKind : Type where
  | nonek
  | sha1
  | sha256
deriving DecidableEq

/-- The enum range iterated by the serializer (`0 .. AS_CHECKSUM_KIND_LAST`). -/
def AsChecksumKind.all : List AsChecksumKind :=
  [.nonek, .sha1, .sha256]

/-- Modelled from the spec: size kinds with an "unknown" sentinel. -/
inductive AsSizeKind : Type where
  | unknown
  | download
  | installed
deriving DecidableEq

/-- The enum range iterated by the serializer (`0 .. AS_SIZE_KIND_LAST`). -/
def AsSizeKind.all : List AsSizeKind :=
  [.unknown, .download, .installed]

/-- Modelled from the spec: URL kinds with an "unknown" sentinel. -/
inductive AsUrlKind : Type where
  | unknown
  | homepage
  | bugtracker
  | faq
  | help
  | donation
deriving DecidableEq

/-- The enum range iterated by the serializer (`0 .. AS_URL_KIND_LAST`). -/
def AsUrlKind.all : List AsUrlKind :=
  [.unknown, .homepage, .bugtracker, .faq, .help, .donation]

/-- Modelled from the spec: bundle kinds; the decoder coerces every
recognized kind to `limba`. -/
inductive AsBundleKind : Type where
  | unknown
  | limba
  | xdgapp
deriving DecidableEq

/-- The enum range iterated by the serializer (`0 .. AS_BUNDLE_KIND_LAST`). -/
def AsBundleKind.all : List AsBundleKind :=
  [.unknown, .limba, .xdgapp]

/-- Modelled from the spec: icon kinds (`stock|cached|local|remote`). -/
inductive AsIconKind : Type where
  | unknown
  | stock
  | cached
  | local_file
  | remote
deriving DecidableEq

/-- Modelled from the spec: provided-item kinds used by this file. -/
inductive AsProvidedKind : Type where
  | library
  | binary
  | font
  | modalias
  | firmware_runtime
  | firmware_flashed
  | python_2
  | python
  | dbus_system
  | dbus_user
  | mimetype
deriving DecidableEq

/-- Modelled from the spec: component kinds with the `generic` default
and an `unknown` sentinel (the full external enum is larger; only these
two values are inspected by the code under verification). -/
inductive AsComponentKind : Type where
  | unknown
  | generic
  | desktop_app
  | addon
  | font
  | codec
  | inputmethod
  | firmware
deriving DecidableEq

/-- Modelled from the spec: an `AsImage` record (zero width/height means
"unspecified"). -/
structure AsImage where
  url : String := ""
  kind : AsImageKind := .source
  width : Nat := 0
  height : Nat := 0
deriving DecidableEq

/-- Modelled from the spec: an `AsScreenshot` record with a locale-keyed
caption map and an ordered image list. -/
structure AsScreenshot where
  kind : AsScreenshotKind := .normal
  active_locale : String := "C"
  captions : List (String × String) := []
  images : List AsImage := []
deriving DecidableEq

/-- Modelled from the spec: an `AsRelease` record.  The timestamp is a
64-bit epoch value (the guint64/glong round-trip through the external
setters is the identity on this range, so it is an `Int` here). -/
structure AsRelease where
  version : String := ""
  active_locale : String := "C"
  timestamp : Int := 0
  urgency : AsUrgencyKind := .unknown
  locations : List String := []
  checksums : List (AsChecksumKind × String) := []
  sizes : List (AsSizeKind × Nat) := []
  descriptions : List (String × String) := []
deriving DecidableEq

/-- Modelled from the spec: an `AsIcon` record ("" models NULL fields). -/
structure AsIcon where
  kind : AsIconKind := .unknown
  name : String := ""
  filename : String := ""
  url : String := ""
deriving DecidableEq

/-- Modelled from the spec: the `AsComponent` record with locale-keyed
text maps (key "C" for the unmarked value), ordered multi-valued lists,
and per-kind maps for urls and bundle ids.  `Option (List String)`
distinguishes a never-set strv (NULL) from a set-but-empty one. -/
structure AsComponent where
  kind : AsComponentKind := .unknown
  id : String := ""
  origin : Option String := none
  priority : Int := 0
  active_locale : String := "C"
  source_pkgname : String := ""
  project_license : String := ""
  project_group : String := ""
  names : List (String × String) := []
  summaries : List (String × String) := []
  developer_names : List (String × String) := []
  descriptions : List (String × String) := []
  pkgnames : Option (List String) := none
  compulsory_for_desktops : Option (List String) := none
  categories : Option (List String) := none
  keywords : Option (List String) := none
  extends_ids : List String := []
  urls : List (AsUrlKind × String) := []
  icons : List AsIcon := []
  provided : List (AsProvidedKind × String) := []
  screenshots : List AsScreenshot := []
  releases : List AsRelease := []
  languages : List (Option String × Int) := []
  bundles : List (AsBundleKind × String) := []
deriving DecidableEq

/-- Modelled from the spec: `as_component_set_description (cpt, value, locale)`. -/
def as_component_set_description (cpt : AsComponent) (value locale : String) : AsComponent :=
  { cpt with descriptions := setAssoc cpt.descriptions locale value }

/-- Modelled from the spec: `as_component_add_provided_item` appends one
kind/identifier pair. -/
def as_component_add_provided_item (cpt : AsComponent) (kind : AsProvidedKind)
    (value : String) : AsComponent :=
  { cpt with provided := cpt.provided ++ [(kind, value)] }

/-- Modelled from the spec: `as_component_add_bundle_id` stores one
identifier per bundle kind. -/
def as_component_add_bundle_id (cpt : AsComponent) (kind : AsBundleKind)
    (value : String) : AsComponent :=
  { cpt with bundles := setAssoc cpt.bundles kind value }

/-- Modelled from the spec: `as_release_set_description (rel, value, locale)`. -/
def as_release_set_description (rel : AsRelease) (value locale : String) : AsRelease :=
  { rel with descriptions := setAssoc rel.descriptions locale value }

/-- Modelled from the spec: `as_release_set_checksum` keeps at most one
value per checksum kind; later values overwrite earlier ones. -/
def as_release_set_checksum (rel : AsRelease) (value : String)
    (kind : AsChecksumKind) : AsRelease :=
  { rel with checksums := setAssoc rel.checksums kind value }

/-- Modelled from the spec: `as_release_set_size` keeps one value per
size kind. -/
def as_release_set_size (rel : AsRelease) (size : Nat) (kind : AsSizeKind) : AsRelease :=
  { rel with sizes := setAssoc rel.sizes kind size }

/-- Modelled from the spec: the localized getter for a release
description (active locale with fallback to the "C" key). -/
def as_release_get_description (rel : AsRelease) : String :=
  match lookupA rel.descriptions rel.active_locale with
  | some v => v
  | none => (lookupA rel.descriptions "C").getD ""

/-- Modelled from the spec: the localized getter for a screenshot
caption (active locale with fallback to the "C" key). -/
def as_screenshot_get_caption (scr : AsScreenshot) : String :=
  match lookupA scr.captions scr.active_locale with
  | some v => v
  | none => (lookupA scr.captions "C").getD ""

/-- Modelled from the spec: external screenshot validity — a screenshot
needs at least one image. -/
def as_screenshot_is_valid (scr : AsScreenshot) : Bool :=
  !scr.images.isEmpty

/-- The external collaborators of the file under verification, passed as
oracle functions: ISO-8601 date conversion (`as_iso8601_to_datetime` /
`g_date_time_to_unix`, `g_time_val_to_iso8601`), the enum name lookup
tables of `as-enums.c`, the external component validity predicate and
pretty-printer, and the XML fragment parser used when re-encoding
description markup (`xmlParseDoc` of `<root>markup</root>`, returning
the root element or `none` for malformed markup). -/
structure AsExternals where
  iso8601_to_unix : String → Option Int
  time_val_to_iso8601 : Int → String
  urgency_kind_from_string : String → AsUrgencyKind
  checksum_kind_from_string : Option String → AsChecksumKind
  size_kind_from_string : Option String → AsSizeKind
  url_kind_from_string : Option String → AsUrlKind
  bundle_kind_from_string : Option String → AsBundleKind
  component_kind_from_string : String → AsComponentKind
  component_kind_to_string : AsComponentKind → String
  urgency_kind_to_string : AsUrgencyKind → String
  checksum_kind_to_string : AsChecksumKind → String
  size_kind_to_string : AsSizeKind → String
  url_kind_to_string : AsUrlKind → String
  bundle_kind_to_string : AsBundleKind → String
  icon_kind_to_string : AsIconKind → String
  is_valid : AsComponent → Bool
  component_to_string : AsComponent → String
  parse_fragment : String → Option XNode

/-- `as_xmldata_get_children_as_strv`: collect the stripped text contents
of all child elements with the given name. -/
def as_xmldata_get_children_as_strv (node : XNode) (element_name : String) : List String :=
  node.children.foldl (fun list iter =>
    if iter.isElem && iter.name == element_name then
      list ++ [g_strstrip (xmlNodeGetContent iter)]
    else list) []

/-- Width/height of an `<image>` element: an absent attribute reads as 0,
a present one is converted with `g_ascii_strtoll` and stored unsigned. -/
def imageDimOf (iter : XNode) (attr : String) : Nat :=
  match xmlGetProp iter attr with
  | none => 0
  | some s => toGUInt64 (g_ascii_strtoll s)

/-- `as_xmldata_process_screenshot`: decode the `<image>` and `<caption>`
children of one `<screenshot>` element into the screenshot record. -/
def as_xmldata_process_screenshot (ctx : AsXMLDataPriv) (node : XNode)
    (scr : AsScreenshot) : AsScreenshot :=
  node.children.foldl (fun scr iter =>
    if iter.isElem = false then scr
    else
      let content := g_strstrip (as_xmldata_get_node_value iter)
      if iter.name = "image" then
        let width := imageDimOf iter "width"
        let height := imageDimOf iter "height"
        if ctx.mode = .distro ∧ (width = 0 ∨ height = 0) then
          scr
        else
          let img : AsImage :=
            { width := width
              height := height
              kind := if xmlGetProp iter "type" = some "thumbnail" then .thumbnail else .source
              url := match ctx.media_baseurl with
                     | none => content
                     | some b => g_build_filename b content }
          { scr with images := scr.images ++ [img] }
      else if iter.name = "caption" then
        match as_xmldata_get_node_locale ctx iter with
        | some lang => { scr with captions := setAssoc scr.captions lang content }
        | none => scr
      else scr) scr

/-- `as_xmldata_process_screenshots_tag`: decode every `<screenshot>`
child, keeping only externally-valid screenshots. -/
def as_xmldata_process_screenshots_tag (ctx : AsXMLDataPriv) (node : XNode)
    (cpt : AsComponent) : AsComponent :=
  node.children.foldl (fun cpt iter =>
    if iter.isElem && iter.name == "screenshot" then
      let sshot0 : AsScreenshot := { active_locale := cpt.active_locale }
      let sshot0 := if xmlGetProp iter "type" = some "default" then
          { sshot0 with kind := .default } else sshot0
      let sshot := as_xmldata_process_screenshot ctx iter sshot0
      if as_screenshot_is_valid sshot then
        { cpt with screenshots := cpt.screenshots ++ [sshot] }
      else cpt
    else cpt) cpt

/-- The hash-table accumulation step of the upstream description decoder:
look up the locale key, create it if absent, and append to its string. -/
def updateDescGroup : List (String × String) → String → String → List (String × String)
  | [], k, v => [(k, v)]
  | (k', v') :: rest, k, v =>
      if k' = k then (k', v' ++ v) :: rest
      else (k', v') :: updateDescGroup rest k v

/-- The string a matched description child contributes to its locale
group: `g_string_append_printf (str, "\n<%s>%s</%s>", ...)` — a newline,
then the child's tag wrapped around its plain text content. -/
def descSerializedChild (iter : XNode) : String :=
  "\n<" ++ iter.name ++ ">" ++ as_xmldata_get_node_value iter ++ "</" ++ iter.name ++ ">"

/-- One iteration of the upstream `<description>` child loop: skip
non-elements and children whose locale does not resolve, otherwise file
the serialized child under its locale key. -/
def descGroupStep (ctx : AsXMLDataPriv) (desc : List (String × String))
    (iter : XNode) : List (String × String) :=
  if iter.isElem = false then desc
  else
    match as_xmldata_get_node_locale ctx iter with
    | none => desc
    | some lang => updateDescGroup desc lang (descSerializedChild iter)

/-- `as_xmldata_parse_upstream_description_tag`: group the children of an
upstream `<description>` element by resolved locale. -/
def as_xmldata_parse_upstream_description_tag (ctx : AsXMLDataPriv)
    (node : XNode) : List (String × String) :=
  node.children.foldl (descGroupStep ctx) []

/-- The serialized contributions of a child list to one locale key (the
reference expression claim C4 is checked against). -/
def descPartsFor (ctx : AsXMLDataPriv) (children : List XNode) (k : String) : List String :=
  children.filterMap (fun c =>
    if c.isElem = false then none
    else
      match as_xmldata_get_node_locale ctx c with
      | some l => if l = k then some (descSerializedChild c) else none
      | none => none)

/-- Concatenation of a list of strings. -/
def concatAll : List String → String
  | [] => ""
  | s :: rest => s ++ concatAll rest

/-- `as_xmldata_upstream_description_to_cpt` applied to every entry of the
locale table (the `g_hash_table_foreach` call). -/
def as_xmldata_upstream_description_to_cpt (desc : List (String × String))
    (cpt : AsComponent) : AsComponent :=
  desc.foldl (fun cpt p => as_component_set_description cpt p.2 p.1) cpt

/-- `as_xmldata_upstream_description_to_release` applied to every entry of
the locale table (the `g_hash_table_foreach` call). -/
def as_xmldata_upstream_description_to_release (desc : List (String × String))
    (rel : AsRelease) : AsRelease :=
  desc.foldl (fun rel p => as_release_set_description rel p.2 p.1) rel

/-- `as_xmldata_dump_node_children`: serialize the element children of a
node back to markup, separated (not preceded) by newlines. -/
def as_xmldata_dump_node_children (node : XNode) : String :=
  node.children.foldl (fun str iter =>
    if iter.isElem = false then str
    else if str.isEmpty then xmlNodeDumpStr iter
    else str ++ "\n" ++ xmlNodeDumpStr iter) ""

/-- One child of a `<release>` element.  The C inner loop re-checks the
node type of the OUTER iterator, so text children are not skipped here;
their pseudo-name "text" simply matches no branch. -/
def as_xmldata_process_release_child (ext : AsExternals) (ctx : AsXMLDataPriv)
    (rel : AsRelease) (iter2 : XNode) : AsRelease :=
  if iter2.name = "location" then
    { rel with locations := rel.locations ++ [as_xmldata_get_node_value iter2] }
  else if iter2.name = "checksum" then
    let cs_kind := ext.checksum_kind_from_string (xmlGetProp iter2 "type")
    if cs_kind ≠ .nonek then
      as_release_set_checksum rel (as_xmldata_get_node_value iter2) cs_kind
    else rel
  else if iter2.name = "size" then
    let s_kind := ext.size_kind_from_string (xmlGetProp iter2 "type")
    if s_kind ≠ .unknown then
      let size := g_ascii_strtoull (as_xmldata_get_node_value iter2)
      if size > 0 then as_release_set_size rel size s_kind else rel
    else rel
  else if iter2.name = "description" then
    if ctx.mode = .distro then
      let content := as_xmldata_dump_node_children iter2
      match as_xmldata_get_node_locale ctx iter2 with
      | some lang => as_release_set_description rel content lang
      | none => rel
    else
      as_xmldata_upstream_description_to_release
        (as_xmldata_parse_upstream_description_tag ctx iter2) rel
  else rel

/-- Decoding of one `<release>` element (the loop body of
`as_xmldata_process_releases_tag`): version, then the `date` attribute,
then the `timestamp` attribute (overwriting), then `urgency`, then the
child elements. -/
def as_xmldata_parse_release_node (ext : AsExternals) (ctx : AsXMLDataPriv)
    (cpt : AsComponent) (iter : XNode) : AsRelease :=
  let release : AsRelease :=
    { active_locale := cpt.active_locale
      version := (xmlGetProp iter "version").getD "" }
  let release := match xmlGetProp iter "date" with
    | some d =>
        match ext.iso8601_to_unix d with
        | some t => { release with timestamp := t }
        | none => release
    | none => release
  let release := match xmlGetProp iter "timestamp" with
    | some tstr => { release with timestamp := g_ascii_strtoll tstr }
    | none => release
  let release := match xmlGetProp iter "urgency" with
    | some u => { release with urgency := ext.urgency_kind_from_string u }
    | none => release
  iter.children.foldl (as_xmldata_process_release_child ext ctx) release

/-- `as_xmldata_process_releases_tag`: decode every `<release>` child. -/
def as_xmldata_process_releases_tag (ext : AsExternals) (ctx : AsXMLDataPriv)
    (node : XNode) (cpt : AsComponent) : AsComponent :=
  node.children.foldl (fun cpt iter =>
    if iter.isElem && iter.name == "release" then
      { cpt with releases := cpt.releases ++ [as_xmldata_parse_release_node ext ctx cpt iter] }
    else cpt) cpt

/-- `as_xmldata_process_provides`: decode the children of `<provides>`
into provided items; `firmware` and `dbus` consult a `type` attribute and
are dropped silently on an absent or unrecognized value. -/
def as_xmldata_process_provides (node : XNode) (cpt : AsComponent) : AsComponent :=
  node.children.foldl (fun cpt iter =>
    if iter.isElem = false then cpt
    else
      let content := as_xmldata_get_node_value iter
      if iter.name = "library" then as_component_add_provided_item cpt .library content
      else if iter.name = "binary" then as_component_add_provided_item cpt .binary content
      else if iter.name = "font" then as_component_add_provided_item cpt .font content
      else if iter.name = "modalias" then as_component_add_provided_item cpt .modalias content
      else if iter.name = "firmware" then
        match xmlGetProp iter "type" with
        | some fwtype =>
            if fwtype = "runtime" then as_component_add_provided_item cpt .firmware_runtime content
            else if fwtype = "flashed" then as_component_add_provided_item cpt .firmware_flashed content
            else cpt
        | none => cpt
      else if iter.name = "python2" then as_component_add_provided_item cpt .python_2 content
      else if iter.name = "python3" then as_component_add_provided_item cpt .python content
      else if iter.name = "dbus" then
        let dbustype := xmlGetProp iter "type"
        if dbustype = some "system" then as_component_add_provided_item cpt .dbus_system content
        else if dbustype = some "user" ∨ dbustype = some "session" then
          as_component_add_provided_item cpt .dbus_user content
        else cpt
      else cpt) cpt

/-- `as_xmldata_set_component_type_from_node`: derive the component kind
from a node's `type` attribute (absent or "generic" means generic). -/
def as_xmldata_set_component_type_from_node (ext : AsExternals) (node : XNode)
    (cpt : AsComponent) : AsComponent :=
  match xmlGetProp node "type" with
  | none => { cpt with kind := .generic }
  | some cpttype =>
      if cpttype = "generic" then { cpt with kind := .generic }
      else { cpt with kind := ext.component_kind_from_string cpttype }

/-- `as_xmldata_process_languages_tag`: decode `<lang>` children with
their completion percentage (0 when the attribute is absent). -/
def as_xmldata_process_languages_tag (ctx : AsXMLDataPriv) (node : XNode)
    (cpt : AsComponent) : AsComponent :=
  node.children.foldl (fun cpt iter =>
    if iter.isElem && iter.name == "lang" then
      let percentage : Int := match xmlGetProp iter "percentage" with
        | some p => g_ascii_strtoll p
        | none => 0
      { cpt with languages :=
          cpt.languages ++ [(as_xmldata_get_node_locale ctx iter, percentage)] }
    else cpt) cpt

/-- The accumulator of the component decoder: the component being built
plus the pkgname and compulsory-for-desktop lists committed at the end. -/
structure CptParseAcc where
  cpt : AsComponent
  pkgnames : List String := []
  compulsory_for_desktops : List String := []
deriving DecidableEq

/-- The child-dispatch loop body of `as_xmldata_parse_component_node`:
match the child element's name against the known tags. -/
def as_xmldata_process_component_child (ext : AsExternals) (ctx : AsXMLDataPriv)
    (acc : CptParseAcc) (iter : XNode) : CptParseAcc :=
  if iter.isElem = false then acc
  else
    let cpt := acc.cpt
    let content := g_strstrip (as_xmldata_get_node_value iter)
    let lang := as_xmldata_get_node_locale ctx iter
    if iter.name = "id" then
      let cpt := { cpt with id := content }
      let cpt := if ctx.mode = .upstream ∧ cpt.kind = .generic then
          as_xmldata_set_component_type_from_node ext iter cpt
        else cpt
      { acc with cpt := cpt }
    else if iter.name = "pkgname" then
      { acc with pkgnames := acc.pkgnames ++ [content] }
    else if iter.name = "source_pkgname" then
      { acc with cpt := { cpt with source_pkgname := content } }
    else if iter.name = "name" then
      match lang with
      | some l => { acc with cpt := { cpt with names := setAssoc cpt.names l content } }
      | none => acc
    else if iter.name = "summary" then
      match lang with
      | some l => { acc with cpt := { cpt with summaries := setAssoc cpt.summaries l content } }
      | none => acc
    else if iter.name = "description" then
      if ctx.mode = .distro then
        match lang with
        | some l =>
            { acc with cpt := as_component_set_description cpt (as_xmldata_dump_node_children iter) l }
        | none => acc
      else
        { acc with cpt := (as_xmldata_upstream_description_to_cpt
            (as_xmldata_parse_upstream_description_tag ctx iter) cpt) }
    else if iter.name = "icon" then
      let prop := xmlGetProp iter "type"
      if prop = some "stock" then
        { acc with cpt := { cpt with icons := cpt.icons ++ [{ kind := .stock, name := content }] } }
      else if prop = some "cached" then
        { acc with cpt := { cpt with icons := cpt.icons ++ [{ kind := .cached, filename := content }] } }
      else if prop = some "local" then
        { acc with cpt := { cpt with icons := cpt.icons ++ [{ kind := .local_file, filename := content }] } }
      else if prop = some "remote" then
        let url := match ctx.media_baseurl with
          | none => content
          | some b => g_build_filename b content
        { acc with cpt := { cpt with icons := cpt.icons ++ [{ kind := .remote, url := url }] } }
      else acc
    else if iter.name = "url" then
      let url_kind := ext.url_kind_from_string (xmlGetProp iter "type")
      if url_kind ≠ .unknown then
        { acc with cpt := { cpt with urls := setAssoc cpt.urls url_kind content } }
      else acc
    else if iter.name = "categories" then
      { acc with cpt := { cpt with categories := some (as_xmldata_get_children_as_strv iter "category") } }
    else if iter.name = "keywords" then
      { acc with cpt := { cpt with keywords := some (as_xmldata_get_children_as_strv iter "keyword") } }
    else if iter.name = "mimetypes" then
      { acc with cpt := ((as_xmldata_get_children_as_strv iter "mimetype").foldl
          (fun c m => as_component_add_provided_item c .mimetype m) cpt) }
    else if iter.name = "provides" then
      { acc with cpt := as_xmldata_process_provides iter cpt }
    else if iter.name = "screenshots" then
      { acc with cpt := as_xmldata_process_screenshots_tag ctx iter cpt }
    else if iter.name = "project_license" then
      { acc with cpt := { cpt with project_license := content } }
    else if iter.name = "project_group" then
      { acc with cpt := { cpt with project_group := content } }
    else if iter.name = "developer_name" then
      match lang with
      | some l => { acc with cpt := { cpt with developer_names := setAssoc cpt.developer_names l content } }
      | none => acc
    else if iter.name = "compulsory_for_desktop" then
      { acc with compulsory_for_desktops := acc.compulsory_for_desktops ++ [content] }
    else if iter.name = "releases" then
      { acc with cpt := as_xmldata_process_releases_tag ext ctx iter cpt }
    else if iter.name = "extends" then
      { acc with cpt := { cpt with extends_ids := cpt.extends_ids ++ [content] } }
    else if iter.name = "languages" then
      { acc with cpt := as_xmldata_process_languages_tag ctx iter cpt }
    else if iter.name = "bundle" then
      let bundle_kind := ext.bundle_kind_from_string (xmlGetProp iter "type")
      let bundle_kind := if bundle_kind ≠ .unknown then AsBundleKind.limba else bundle_kind
      { acc with cpt := as_component_add_bundle_id cpt bundle_kind content }
    else acc

/-- `as_xmldata_parse_component_node`: decode one `<component>` element;
finalization stamps origin/pkgnames/compulsory lists and rejects the
component (with a textual dump in the error) when it fails the external
validity check and `allow_invalid` is false. -/
def as_xmldata_parse_component_node (ext : AsExternals) (ctx : AsXMLDataPriv)
    (node : XNode) (allow_invalid : Bool) : Except String AsComponent :=
  let cpt0 : AsComponent := {}
  let cpt0 := as_xmldata_set_component_type_from_node ext node cpt0
  let cpt0 := { cpt0 with priority := ctx.default_priority, active_locale := ctx.locale }
  let acc := node.children.foldl (as_xmldata_process_component_child ext ctx) { cpt := cpt0 }
  let cpt := { acc.cpt with
               origin := ctx.origin
               pkgnames := some acc.pkgnames
               compulsory_for_desktops := some acc.compulsory_for_desktops }
  if allow_invalid || ext.is_valid cpt then .ok cpt
  else .error ("Invalid component: " ++ ext.component_to_string cpt)

/-- The instance-state update performed at the top of
`as_xmldata_parse_components_node`: origin, media base URL and default
priority are read from the `<components>` root attributes.  (The C code
frees the media-baseurl string right after storing the pointer — a
memory bug outside a value-semantics model; the attribute value is kept.) -/
def as_xmldata_components_node_ctx (ctx : AsXMLDataPriv) (node : XNode) : AsXMLDataPriv :=
  { ctx with
    origin := xmlGetProp node "origin"
    media_baseurl := xmlGetProp node "media_baseurl"
    default_priority := match xmlGetProp node "priority" with
      | some p => g_ascii_strtoll p
      | none => ctx.default_priority }

/-- The child loop of `as_xmldata_parse_components_node`: decode each
`<component>` child in order, aborting at the first error while keeping
the components accumulated so far. -/
def as_xmldata_parse_components_loop (ext : AsExternals) (ctx : AsXMLDataPriv)
    (allow_invalid : Bool) : List XNode → List AsComponent → List AsComponent × Option String
  | [], cpts => (cpts, none)
  | iter :: rest, cpts =>
      if iter.isElem && iter.name == "component" then
        match as_xmldata_parse_component_node ext ctx iter allow_invalid with
        | .error e => (cpts, some e)
        | .ok cpt => as_xmldata_parse_components_loop ext ctx allow_invalid rest (cpts ++ [cpt])
      else as_xmldata_parse_components_loop ext ctx allow_invalid rest cpts

/-- `as_xmldata_parse_components_node`: read the collection attributes,
then decode the `<component>` children. -/
def as_xmldata_parse_components_node (ext : AsExternals) (ctx : AsXMLDataPriv)
    (node : XNode) (allow_invalid : Bool) : List AsComponent × Option String :=
  let ctx := as_xmldata_components_node_ctx ctx node
  as_xmldata_parse_components_loop ext ctx allow_invalid node.children []

/-- The outcome of handing the raw XML text to the external parser
(`xmlParseDoc` + `xmlDocGetRootElement`): NULL input data, a parse
failure, a document without a root element, or a root element. -/
inductive XmlInput : Type where
  | noData
  | malformed
  | emptyDoc
  | rooted (root : XNode)

/-- `as_xmldata_parse_upstream_data`: parse a single-component (upstream)
document; the result pairs the decoded component with the GError. -/
def as_xmldata_parse_upstream_data (ext : AsExternals) (ctx : AsXMLDataPriv)
    (data : XmlInput) : Option AsComponent × Option String :=
  match data with
  | .noData => (none, none)
  | .malformed => (none, some "Could not parse XML!")
  | .emptyDoc => (none, some "The XML document appears to be empty.")
  | .rooted root =>
      let ctx := { ctx with mode := .upstream }
      if root.name = "components" then
        (none, some "Tried to parse distro metadata as upstream metadata.")
      else if root.name = "component" ∨ root.name = "application" then
        match as_xmldata_parse_component_node ext ctx root true with
        | .ok cpt => (some cpt, none)
        | .error e => (none, some e)
      else (none, some "XML file does not contain valid AppStream data!")

/-- `as_xmldata_parse_distro_data`: parse a distro collection document;
the result pairs the (possibly NULL) component array with the GError. -/
def as_xmldata_parse_distro_data (ext : AsExternals) (ctx : AsXMLDataPriv)
    (data : XmlInput) : Option (List AsComponent) × Option String :=
  match data with
  | .noData => (none, none)
  | .malformed => (none, some "Could not parse XML!")
  | .emptyDoc => (none, some "The XML document is empty.")
  | .rooted root =>
      let ctx := { ctx with mode := .distro }
      if root.name = "components" then
        let res := as_xmldata_parse_components_node ext ctx root false
        (some res.1, res.2)
      else if root.name = "component" then
        match as_xmldata_parse_component_node ext ctx root true with
        | .ok cpt => (some [cpt], none)
        | .error e => (some [], some e)
      else (some [], some "XML file does not contain valid AppStream data!")

/-- `xmlNewTextChild`: an element with a text child when the value is
non-empty ("" models a NULL content). -/
def mkTextChild (name value : String) : XNode :=
  XNode.elem name [] (if value.isEmpty then [] else [XNode.text value])

/-- `as_xmldata_xml_add_node`: append a text child only when the value is
not empty (the omit-empty policy). -/
def as_xmldata_xml_add_node (cs : List XNode) (name value : String) : List XNode :=
  if as_str_empty value then cs else cs ++ [mkTextChild name value]

/-- `as_xmldata_xml_add_node_list`: emit one child per string, optionally
wrapped in a container element; a NULL strv emits nothing. -/
def as_xmldata_xml_add_node_list (cs : List XNode) (name : Option String)
    (child_name : String) (strv : Option (List String)) : List XNode :=
  match strv with
  | none => cs
  | some l =>
      match name with
      | none => cs ++ l.map (fun s => mkTextChild child_name s)
      | some nm => cs ++ [XNode.elem nm [] (l.map (fun s => mkTextChild child_name s))]

/-- `_as_xmldata_lang_hashtable_to_nodes` applied to every entry of a
locale table: one node per non-empty value, with an `xml:lang` attribute
for every key other than "C". -/
def langTableToNodes (node_name : String) (table : List (String × String)) : List XNode :=
  table.foldl (fun acc p =>
    if as_str_empty p.2 then acc
    else
      let attrs := if p.1 = "C" then [] else [("xml:lang", p.1)]
      acc ++ [XNode.elem node_name attrs [XNode.text p.2]]) []

/-- Adding the synthetic `xml:lang` attribute to a copied description
child (`xmlNewProp` after `xmlCopyNode`), done only in upstream mode for
a localized entry.  The C code also calls `xmlNewProp` on copied text
nodes, which has no representable effect on a text node. -/
def addLangPropIfLocalized (ctx : AsXMLDataPriv) (localized : Bool) (lang : String) :
    XNode → XNode
  | .elem n a cs =>
      if ctx.mode = .upstream ∧ localized then .elem n (a ++ [("xml:lang", lang)]) cs
      else .elem n a cs
  | .text s => .text s

/-- `as_xmldata_xml_add_description`: re-parse one locale's description
markup and graft its children onto the description node — in upstream
mode one shared `<description>` node accumulates every locale (with
`xml:lang` on each copied child, propagated into list items of `ul`/`ol`
containers), in distro mode a fresh `<description>` node per locale
carries the `xml:lang` attribute itself.  Returns the updated shared
node and the list of freshly created distro-mode nodes; malformed markup
yields no change. -/
def as_xmldata_xml_add_description (ext : AsExternals) (ctx : AsXMLDataPriv)
    (desc_node : Option XNode) (description_markup lang : String) :
    Option XNode × List XNode :=
  if as_str_empty description_markup then (desc_node, [])
  else
    match ext.parse_fragment description_markup with
    | none => (desc_node, [])
    | some droot =>
        let localized := lang != "C"
        let newChildren := droot.children.foldl (fun acc c =>
          match c with
          | .elem n _ _ =>
              if n = "ul" ∨ n = "ol" then
                acc ++ [XNode.elem n [] (c.children.map (addLangPropIfLocalized ctx localized lang))]
              else acc ++ [addLangPropIfLocalized ctx localized lang c]
          | .text s => acc ++ [XNode.text s]) []
        if ctx.mode = .upstream then
          match desc_node with
          | some (XNode.elem n a cs) => (some (XNode.elem n a (cs ++ newChildren)), [])
          | some (XNode.text s) => (some (XNode.text s), [])
          | none => (some (XNode.elem "description" [] newChildren), [])
        else
          let dattrs := if localized then [("xml:lang", lang)] else []
          (desc_node, [XNode.elem "description" dattrs newChildren])

/-- `_as_xmldata_serialize_image`: one `<image>` node; width/height
attributes are emitted only when both are non-zero. -/
def as_xmldata_serialize_image (img : AsImage) : XNode :=
  let attrs := [("type", if img.kind = .thumbnail then "thumbnail" else "source")]
  let attrs := if img.width > 0 ∧ img.height > 0 then
      attrs ++ [("width", toString img.width), ("height", toString img.height)]
    else attrs
  XNode.elem "image" attrs (if img.url.isEmpty then [] else [XNode.text img.url])

/-- `as_xmldata_add_screenshot_subnodes`: the `<screenshot>` children of
the `<screenshots>` node. -/
def as_xmldata_add_screenshot_subnodes (cpt : AsComponent) : List XNode :=
  cpt.screenshots.map (fun sshot =>
    let attrs := if sshot.kind = .default then [("type", "default")] else []
    let str := as_screenshot_get_caption sshot
    let cs := if str ≠ "" then [mkTextChild "caption" str] else []
    let cs := cs ++ sshot.images.map as_xmldata_serialize_image
    XNode.elem "screenshot" attrs cs)

/-- One `<release>` node (the loop body of
`as_xmldata_add_release_subnodes`): version attribute always; for a
positive timestamp a raw-integer `timestamp` attribute in distro mode or
an ISO-8601 `date` attribute in upstream mode; urgency when known; then
location, checksum, size and description children. -/
def as_xmldata_release_to_node (ext : AsExternals) (ctx : AsXMLDataPriv)
    (release : AsRelease) : XNode :=
  let attrs := [("version", release.version)]
  let attrs := if release.timestamp > 0 then
      (if ctx.mode = .distro then attrs ++ [("timestamp", toString release.timestamp)]
       else attrs ++ [("date", ext.time_val_to_iso8601 release.timestamp)])
    else attrs
  let attrs := if release.urgency ≠ .unknown then
      attrs ++ [("urgency", ext.urgency_kind_to_string release.urgency)]
    else attrs
  let cs := release.locations.map (fun lurl => mkTextChild "location" lurl)
  let cs := cs ++ AsChecksumKind.all.foldl (fun acc j =>
      match lookupA release.checksums j with
      | none => acc
      | some v => acc ++ [XNode.elem "checksum" [("type", ext.checksum_kind_to_string j)]
          (if v.isEmpty then [] else [XNode.text v])]) []
  let cs := cs ++ AsSizeKind.all.foldl (fun acc j =>
      match lookupA release.sizes j with
      | none => acc
      | some sz =>
          if sz > 0 then
            acc ++ [XNode.elem "size" [("type", ext.size_kind_to_string j)] [XNode.text (toString sz)]]
          else acc) []
  let str := as_release_get_description release
  let cs := if str ≠ "" then cs ++ [mkTextChild "description" str] else cs
  XNode.elem "release" attrs cs

/-- `as_xmldata_add_release_subnodes`: the `<release>` children of the
`<releases>` node. -/
def as_xmldata_add_release_subnodes (ext : AsExternals) (ctx : AsXMLDataPriv)
    (cpt : AsComponent) : List XNode :=
  cpt.releases.map (as_xmldata_release_to_node ext ctx)

/-- `as_xmldata_component_to_node`: serialize one component record to a
`<component>` element, following the field order of the C function. -/
def as_xmldata_component_to_node (ext : AsExternals) (ctx : AsXMLDataPriv)
    (cpt : AsComponent) : XNode :=
  let cattrs := if cpt.kind ≠ .generic ∧ cpt.kind ≠ .unknown then
      [("type", ext.component_kind_to_string cpt.kind)] else []
  let cs : List XNode := []
  let cs := as_xmldata_xml_add_node cs "id" cpt.id
  let cs := cs ++ langTableToNodes "name" cpt.names
  let cs := cs ++ langTableToNodes "summary" cpt.summaries
  let cs := cs ++ langTableToNodes "developer_name" cpt.developer_names
  let desc_st := cpt.descriptions.foldl (fun (st : Option XNode × List XNode) p =>
      let r := as_xmldata_xml_add_description ext ctx st.1 p.2 p.1
      (r.1, st.2 ++ r.2)) (none, [])
  let cs := cs ++ (match desc_st.1 with | some n => [n] | none => []) ++ desc_st.2
  let cs := as_xmldata_xml_add_node cs "project_license" cpt.project_license
  let cs := as_xmldata_xml_add_node cs "project_group" cpt.project_group
  let cs := as_xmldata_xml_add_node_list cs none "pkgname" cpt.pkgnames
  let cs := as_xmldata_xml_add_node_list cs none "extends" (some cpt.extends_ids)
  let cs := as_xmldata_xml_add_node_list cs none "compulsory_for_desktop" cpt.compulsory_for_desktops
  let cs := as_xmldata_xml_add_node_list cs (some "keywords") "keyword" cpt.keywords
  let cs := as_xmldata_xml_add_node_list cs (some "categories") "category" cpt.categories
  let cs := cs ++ AsUrlKind.all.foldl (fun acc k =>
      match lookupA cpt.urls k with
      | none => acc
      | some value => acc ++ [XNode.elem "url" [("type", ext.url_kind_to_string k)]
          (if value.isEmpty then [] else [XNode.text value])]) []
  let cs := cs ++ cpt.icons.foldl (fun acc icon =>
      let value := if icon.kind = .local_file then icon.filename
        else if icon.kind = .remote then icon.url
        else icon.name
      if value.isEmpty then acc
      else acc ++ [XNode.elem "icon" [("type", ext.icon_kind_to_string icon.kind)]
          [XNode.text value]]) []
  let cs := cs ++ AsBundleKind.all.foldl (fun acc k =>
      match lookupA cpt.bundles k with
      | none => acc
      | some value => acc ++ [XNode.elem "bundle" [("type", ext.bundle_kind_to_string k)]
          (if value.isEmpty then [] else [XNode.text value])]) []
  let cs := if cpt.releases.length > 0 then
      cs ++ [XNode.elem "releases" [] (as_xmldata_add_release_subnodes ext ctx cpt)]
    else cs
  let cs := if cpt.screenshots.length > 0 then
      cs ++ [XNode.elem "screenshots" [] (as_xmldata_add_screenshot_subnodes cpt)]
    else cs
  XNode.elem "component" cattrs cs

/-- `as_xmldata_serialize_to_upstream`: one `<component>` document (the
final text dump is the external `xmlDocDumpMemory`; the document root is
returned here). -/
def as_xmldata_serialize_to_upstream (ext : AsExternals) (ctx : AsXMLDataPriv)
    (cpt : AsComponent) : Option XNode :=
  let ctx := { ctx with mode := .upstream }
  some (as_xmldata_component_to_node ext ctx cpt)

/-- `as_xmldata_serialize_to_distro`: no output at all for an empty
input list; otherwise a `<components version="0.8">` root (with an
`origin` attribute when one is configured) wrapping one node per
component. -/
def as_xmldata_serialize_to_distro (ext : AsExternals) (ctx : AsXMLDataPriv)
    (cpts : List AsComponent) : Option XNode :=
  if cpts.length = 0 then none
  else
    let ctx := { ctx with mode := .distro }
    let attrs := [("version", "0.8")] ++
      (match ctx.origin with | some o => [("origin", o)] | none => [])
    some (XNode.elem "components" attrs (cpts.map (as_xmldata_component_to_node ext ctx)))

/-- `as_xmldata_set_parser_mode`. -/
def as_xmldata_set_parser_mode (ctx : AsXMLDataPriv) (mode : AsParserMode) : AsXMLDataPriv :=
  { ctx with mode := mode }

/-- Whether an `Except` result is a success. -/
def exceptIsOk {ε α : Type} : Except ε α → Bool
  | .ok _ => true
  | .error _ => false

/-- The success value of an `Except` result, if any. -/
def exceptToOption {ε α : Type} : Except ε α → Option α
  | .ok a => some a
  | .error _ => none

/-- A concrete, executable instantiation of the external collaborators,
used to evaluate the theorems on closed inputs.  The validity predicate
follows the spec's minimum ("non-empty id"); the lookup tables recognize
one representative name per kind. -/
def ext0 : AsExternals :=
  { iso8601_to_unix := fun s => if s = "2020-01-01T00:00:00" then some 1577836800 else none
    time_val_to_iso8601 := fun i => toString i ++ "Z"
    urgency_kind_from_string := fun s => if s = "critical" then .critical else .unknown
    checksum_kind_from_string := fun s =>
      if s = some "sha256" then .sha256 else if s = some "sha1" then .sha1 else .nonek
    size_kind_from_string := fun s =>
      if s = some "download" then .download
      else if s = some "installed" then .installed else .unknown
    url_kind_from_string := fun s => if s = some "homepage" then .homepage else .unknown
    bundle_kind_from_string := fun s =>
      if s = some "limba" then .limba else if s = some "xdg-app" then .xdgapp else .unknown
    component_kind_from_string := fun s => if s = "desktop" then .desktop_app else .unknown
    component_kind_to_string := fun k =>
      match k with
      | .desktop_app => "desktop"
      | .generic => "generic"
      | _ => "unknown"
    urgency_kind_to_string := fun _ => "critical"
    checksum_kind_to_string := fun k =>
      match k with
      | .sha256 => "sha256"
      | .sha1 => "sha1"
      | .nonek => "none"
    size_kind_to_string := fun k =>
      match k with
      | .download => "download"
      | .installed => "installed"
      | .unknown => "unknown"
    url_kind_to_string := fun _ => "homepage"
    bundle_kind_to_string := fun k =>
      match k with
      | .limba => "limba"
      | .xdgapp => "xdg-app"
      | .unknown => "unknown"
    icon_kind_to_string := fun _ => "stock"
    is_valid := fun c => !c.id.isEmpty
    component_to_string := fun c => "id=" ++ c.id
    parse_fragment := fun _ => none }

/-- Concrete fixture: a `<component>` element that decodes to a valid
record (it has a non-empty id). -/
def cptNodeGood : XNode :=
  XNode.elem "component" [] [XNode.elem "id" [] [XNode.text "org.example.app"]]

/-- Concrete fixture: a `<component>` element without an `<id>` child,
which decodes to a record failing the external validity check. -/
def cptNodeBad : XNode :=
  XNode.elem "component" [] []

/-- Concrete fixture: a valid `<component>` element placed after the
invalid one. -/
def cptNodeAfter : XNode :=
  XNode.elem "component" [] [XNode.elem "id" [] [XNode.text "org.example.two"]]

/-- Concrete fixture: a `<components>` collection whose second component
is invalid. -/
def componentsNodeFix : XNode :=
  XNode.elem "components" [] [cptNodeGood, cptNodeBad, cptNodeAfter]

/-- C1: the locale resolver agrees with the spec's case analysis for
every configured active locale and every node. -/
theorem claim_C1_locale_resolver (ctx : AsXMLDataPriv) (locale : String)
    (origin mb : Option String) (pr : Int) (node : XNode) :
    as_xmldata_get_node_locale (as_xmldata_init_ctx ctx locale origin mb pr) node
      = localeResolverSpec locale (xmlGetProp node "lang") := by
  unfold as_xmldata_get_node_locale localeResolverSpec as_xmldata_init_ctx
  cases h : xmlGetProp node "lang" with
  | none => rfl
  | some lang =>
      by_cases hall : locale = "ALL"
      · simp [hall]
      · by_cases hexact : lang = locale
        · simp [hall, hexact]
        · by_cases hshort : lang = localeShortOf locale
          · simp [hall, hexact, hshort]
          · simp [hall, hexact, hshort]

theorem lookupA_append {κ β : Type} [DecidableEq κ] (a b : List (κ × β)) (k : κ) :
    lookupA (a ++ b) k =
      match lookupA a k with
      | some v => some v
      | none => lookupA b k := by
  induction a with
  | nil => rfl
  | cons p a ih =>
      rcases p with ⟨k', v⟩
      by_cases h : k' = k <;> simp [lookupA, h, ih]

theorem lookupA_setAssoc {κ β : Type} [DecidableEq κ] (m : List (κ × β)) (a : κ) (b : β)
    (k : κ) :
    lookupA (setAssoc m a b) k = if a = k then some b else lookupA m k := by
  induction m with
  | nil => simp [setAssoc, lookupA]
  | cons p m ih =>
      rcases p with ⟨k', v'⟩
      simp only [setAssoc]
      by_cases h1 : k' = a
      · subst h1
        rw [if_pos rfl]
        by_cases h2 : k' = k <;> simp [lookupA, h2]
      · rw [if_neg h1]
        by_cases h2 : k' = k
        · subst h2
          have ha : ¬a = k' := fun h => h1 h.symm
          simp [lookupA, ha]
        · simp [lookupA, h2, ih]

theorem lookupA_updateDescGroup (m : List (String × String)) (k v k' : String) :
    lookupA (updateDescGroup m k v) k' =
      if k = k' then
        match lookupA m k with
        | some v' => some (v' ++ v)
        | none => some v
      else lookupA m k' := by
  induction m with
  | nil =>
      by_cases h : k = k' <;> simp [updateDescGroup, lookupA, h]
  | cons p m ih =>
      rcases p with ⟨k0, v0⟩
      by_cases h0 : k0 = k
      · subst h0
        by_cases h1 : k0 = k' <;> simp [updateDescGroup, lookupA, h1]
      · by_cases h1 : k0 = k' <;> by_cases h2 : k = k' <;>
          simp_all [updateDescGroup, lookupA]

theorem upstream_desc_to_release_timestamp (desc : List (String × String)) :
    ∀ rel : AsRelease,
      (as_xmldata_upstream_description_to_release desc rel).timestamp = rel.timestamp := by
  induction desc with
  | nil => intro rel; rfl
  | cons p ps ih =>
      intro rel
      show (as_xmldata_upstream_description_to_release ps
        (as_release_set_description rel p.2 p.1)).timestamp = rel.timestamp
      rw [ih]; rfl

theorem process_release_child_timestamp (ext : AsExternals) (ctx : AsXMLDataPriv)
    (rel : AsRelease) (iter2 : XNode) :
    (as_xmldata_process_release_child ext ctx rel iter2).timestamp = rel.timestamp := by
  simp only [as_xmldata_process_release_child]
  repeat' split
  all_goals
    simp [as_release_set_checksum, as_release_set_size, as_release_set_description,
      upstream_desc_to_release_timestamp]

theorem release_children_fold_timestamp (ext : AsExternals) (ctx : AsXMLDataPriv)
    (children : List XNode) :
    ∀ rel : AsRelease,
      (children.foldl (as_xmldata_process_release_child ext ctx) rel).timestamp
        = rel.timestamp := by
  induction children with
  | nil => intro rel; rfl
  | cons c cs ih =>
      intro rel
      rw [List.foldl_cons, ih, process_release_child_timestamp]

/-- C2: a `<release>` with both a valid ISO-8601 `date` attribute and a
raw-integer `timestamp` attribute ends up with the `timestamp` value
(applied after the date, so the integer form wins); an invalid `date`
string is ignored without affecting the result or raising any error. -/
theorem claim_C2_release_timestamp (ext : AsExternals) (ctx : AsXMLDataPriv)
    (cpt : AsComponent) (a : List (String × String)) (children : List XNode)
    (d t : String) (x : Int) :
    (lookupA a "date" = some d → ext.iso8601_to_unix d = some x →
      lookupA a "timestamp" = some t →
      (as_xmldata_parse_release_node ext ctx cpt (XNode.elem "release" a children)).timestamp
        = g_ascii_strtoll t)
  ∧ (lookupA a "date" = some d → ext.iso8601_to_unix d = none →
      lookupA a "timestamp" = none →
      (as_xmldata_parse_release_node ext ctx cpt (XNode.elem "release" a children)).timestamp
        = 0) := by
  constructor
  · intro hd hv ht
    unfold as_xmldata_parse_release_node
    simp only [xmlGetProp, XNode.attrs, XNode.children, hd, hv, ht]
    cases hu : lookupA a "urgency" <;>
      simp [release_children_fold_timestamp, hu]
  · intro hd hv ht
    unfold as_xmldata_parse_release_node
    simp only [xmlGetProp, XNode.attrs, XNode.children, hd, hv, ht]
    cases hu : lookupA a "urgency" <;>
      simp [release_children_fold_timestamp, hu]

/-- Witness for C2 at a concrete release node carrying both attributes. -/
theorem claim_C2_witness :
    lookupA [("date", "2020-01-01T00:00:00"), ("timestamp", "1600000000")] "date"
      = some "2020-01-01T00:00:00"
  ∧ ext0.iso8601_to_unix "2020-01-01T00:00:00" = some 1577836800
  ∧ (as_xmldata_parse_release_node ext0 {} {}
      (XNode.elem "release" [("date", "2020-01-01T00:00:00"), ("timestamp", "1600000000")] [])).timestamp
      = 1600000000 := by
  refine ⟨by decide, by decide, ?_⟩
  have h := (claim_C2_release_timestamp ext0 {} {}
    [("date", "2020-01-01T00:00:00"), ("timestamp", "1600000000")] []
    "2020-01-01T00:00:00" "1600000000" 1577836800).1 (by decide) (by decide) (by decide)
  exact h.trans (by decide)

theorem components_loop_abort (ext : AsExternals) (ctx : AsXMLDataPriv) (bad : XNode)
    (post : List XNode) (e : String)
    (hbad : (bad.isElem && bad.name == "component") = true)
    (herr : as_xmldata_parse_component_node ext ctx bad false = .error e) :
    ∀ (pre : List XNode) (acc : List AsComponent),
      (∀ n ∈ pre, (n.isElem && n.name == "component") = true →
        exceptIsOk (as_xmldata_parse_component_node ext ctx n false) = true) →
      as_xmldata_parse_components_loop ext ctx false (pre ++ bad :: post) acc
        = (acc ++ pre.filterMap (fun n =>
            if (n.isElem && n.name == "component") = true then
              exceptToOption (as_xmldata_parse_component_node ext ctx n false)
            else none), some e) := by
  intro pre
  induction pre with
  | nil =>
      intro acc _
      simp [as_xmldata_parse_components_loop, hbad, herr]
  | cons c pre ih =>
      intro acc hpre
      have htail : ∀ n ∈ pre, (n.isElem && n.name == "component") = true →
          exceptIsOk (as_xmldata_parse_component_node ext ctx n false) = true :=
        fun n hn hc => hpre n (List.mem_cons_of_mem _ hn) hc
      by_cases hcc : (c.isElem && c.name == "component") = true
      · have hcc' : c.isElem = true ∧ c.name = "component" := by simpa using hcc
        have hok := hpre c (List.mem_cons_self _ _) hcc
        cases hp : as_xmldata_parse_component_node ext ctx c false with
        | error e' => rw [hp] at hok; simp [exceptIsOk] at hok
        | ok cpt =>
            have hloop : as_xmldata_parse_components_loop ext ctx false
                ((c :: pre) ++ bad :: post) acc
              = as_xmldata_parse_components_loop ext ctx false (pre ++ bad :: post)
                  (acc ++ [cpt]) := by
              simp [as_xmldata_parse_components_loop, hcc, hp]
            rw [hloop, ih (acc ++ [cpt]) htail]
            simp [List.filterMap_cons, hcc', hp, exceptToOption]
      · have hcc' : ¬(c.isElem = true ∧ c.name = "component") := by
          intro h
          exact hcc (by simp [h.1, h.2])
        have hloop : as_xmldata_parse_components_loop ext ctx false
            ((c :: pre) ++ bad :: post) acc
          = as_xmldata_parse_components_loop ext ctx false (pre ++ bad :: post) acc := by
          simp [as_xmldata_parse_components_loop, hcc]
        rw [hloop, ih acc htail]
        simp [List.filterMap_cons, hcc']

/-- C3: in a distro-mode collection parse, the first `<component>` child
whose decoded record fails the external validity check aborts the whole
loop with an error carrying a textual dump of the offending record; the
siblings after it are never decoded, while the valid components decoded
before it remain in the output array. -/
theorem claim_C3_collection_abort (ext : AsExternals) (ctx ctx' : AsXMLDataPriv)
    (nm : String) (rattrs : List (String × String)) (pre : List XNode) (bad : XNode)
    (post : List XNode) (e : String)
    (hctx : ctx' = as_xmldata_components_node_ctx ctx (XNode.elem nm rattrs (pre ++ bad :: post)))
    (hpre : ∀ n ∈ pre, (n.isElem && n.name == "component") = true →
      exceptIsOk (as_xmldata_parse_component_node ext ctx' n false) = true)
    (hbad : (bad.isElem && bad.name == "component") = true)
    (herr : as_xmldata_parse_component_node ext ctx' bad false = .error e) :
    as_xmldata_parse_components_node ext ctx (XNode.elem nm rattrs (pre ++ bad :: post)) false
      = (pre.filterMap (fun n =>
          if (n.isElem && n.name == "component") = true then
            exceptToOption (as_xmldata_parse_component_node ext ctx' n false)
          else none), some e)
  ∧ ∃ cptd : AsComponent,
      e = "Invalid component: " ++ ext.component_to_string cptd
      ∧ ext.is_valid cptd = false := by
  constructor
  · unfold as_xmldata_parse_components_node
    rw [← hctx]
    have h := components_loop_abort ext ctx' bad post e hbad herr pre [] hpre
    simpa using h
  · simp only [as_xmldata_parse_component_node] at herr
    split at herr
    · exact absurd herr (by simp)
    · rename_i hcond
      injection herr with h
      exact ⟨_, h.symm, by simpa using hcond⟩

/-- Witness for C3 at a concrete collection: the second component lacks
an id, the parse aborts with the invalid-component error, and exactly
the one earlier valid component is returned. -/
theorem claim_C3_witness :
    exceptIsOk (as_xmldata_parse_component_node ext0 {} cptNodeGood false) = true
  ∧ as_xmldata_parse_component_node ext0 {} cptNodeBad false
      = .error "Invalid component: id="
  ∧ (as_xmldata_parse_components_node ext0 {} componentsNodeFix false).2
      = some "Invalid component: id="
  ∧ (as_xmldata_parse_components_node ext0 {} componentsNodeFix false).1.length = 1 := by
  have h := (claim_C3_collection_abort ext0 {} {} "components" [] [cptNodeGood] cptNodeBad
    [cptNodeAfter] "Invalid component: id=" (by decide)
    (by decide) (by decide) (by rfl)).1
  refine ⟨by decide, by rfl, ?_, ?_⟩
  · rw [show componentsNodeFix
      = XNode.elem "components" [] ([cptNodeGood] ++ cptNodeBad :: [cptNodeAfter]) from rfl, h]
  · rw [show componentsNodeFix
      = XNode.elem "components" [] ([cptNodeGood] ++ cptNodeBad :: [cptNodeAfter]) from rfl, h]
    decide

theorem descGroup_fold_lookup (ctx : AsXMLDataPriv) (cs : List XNode) :
    ∀ (m : List (String × String)) (k : String),
      lookupA (cs.foldl (descGroupStep ctx) m) k =
        match lookupA m k with
        | some v => some (v ++ concatAll (descPartsFor ctx cs k))
        | none =>
            if (descPartsFor ctx cs k).isEmpty then none
            else some (concatAll (descPartsFor ctx cs k)) := by
  induction cs with
  | nil =>
      intro m k
      cases h : lookupA m k <;> simp [descPartsFor, concatAll, h, String.append_empty]
  | cons c cs ih =>
      intro m k
      simp only [List.foldl_cons]
      by_cases he : c.isElem = false
      · have hstep : descGroupStep ctx m c = m := by simp [descGroupStep, he]
        have hparts : descPartsFor ctx (c :: cs) k = descPartsFor ctx cs k := by
          simp [descPartsFor, List.filterMap_cons, he]
        rw [hstep, hparts]
        exact ih m k
      · have he' : c.isElem = true := by
          cases hval : c.isElem
          · exact absurd hval he
          · rfl
        cases hloc : as_xmldata_get_node_locale ctx c with
        | none =>
            have hstep : descGroupStep ctx m c = m := by simp [descGroupStep, he', hloc]
            have hparts : descPartsFor ctx (c :: cs) k = descPartsFor ctx cs k := by
              simp [descPartsFor, List.filterMap_cons, he', hloc]
            rw [hstep, hparts]
            exact ih m k
        | some l =>
            have hstep : descGroupStep ctx m c
                = updateDescGroup m l (descSerializedChild c) := by
              simp [descGroupStep, he', hloc]
            rw [hstep, ih _ k]
            by_cases hlk : l = k
            · subst hlk
              have hparts : descPartsFor ctx (c :: cs) l
                  = descSerializedChild c :: descPartsFor ctx cs l := by
                simp [descPartsFor, List.filterMap_cons, he', hloc]
              rw [hparts, lookupA_updateDescGroup, if_pos rfl]
              cases hm : lookupA m l <;>
                simp [concatAll, String.append_assoc]
            · have hparts : descPartsFor ctx (c :: cs) k = descPartsFor ctx cs k := by
                simp [descPartsFor, List.filterMap_cons, he', hloc, hlk]
              rw [hparts, lookupA_updateDescGroup, if_neg hlk]

theorem upstream_desc_to_cpt_lookup (pairs : List (String × String)) :
    ∀ (cpt : AsComponent) (k : String),
      lookupA (as_xmldata_upstream_description_to_cpt pairs cpt).descriptions k
        = match lookupA pairs.reverse k with
          | some v => some v
          | none => lookupA cpt.descriptions k := by
  induction pairs with
  | nil => intro cpt k; rfl
  | cons p ps ih =>
      intro cpt k
      show lookupA (as_xmldata_upstream_description_to_cpt ps
          (as_component_set_description cpt p.2 p.1)).descriptions k = _
      rw [ih, List.reverse_cons, lookupA_append]
      cases hps : lookupA ps.reverse k with
      | some v => rfl
      | none =>
          simp only [as_component_set_description, lookupA_setAssoc]
          by_cases hp1 : p.1 = k <;> simp [lookupA, hp1]

/-- C4 counterexample: the claim as stated says each matched child is
serialized back with its element tags preserved verbatim and that
same-locale children are joined with a newline *separator*; on a
`<description>` with the single child `<ul><li>x</li></ul>` that reading
yields "<ul><li>x</li></ul>", but the code produces "\n<ul>x</ul>" — a
newline is prepended to every child and nested tags are flattened to
text content. -/
theorem claim_C4_counterexample :
    lookupA (as_xmldata_parse_upstream_description_tag {}
        (XNode.elem "description" []
          [XNode.elem "ul" [] [XNode.elem "li" [] [XNode.text "x"]]])) "C"
      = some "\n<ul>x</ul>"
  ∧ ("\n<ul>x</ul>" : String) ≠ "<ul><li>x</li></ul>" :=
  ⟨by decide, by decide⟩

/-- C4 (amended): decoding an upstream `<description>` groups the
element children by resolved locale; each matched child contributes a
newline followed by its tag wrapped around its plain text content (so
same-locale children are newline-separated with a leading newline, and
nested markup is not preserved); children whose locale does not resolve
contribute nothing; and the component decoder stores the resulting
per-locale strings on the component keyed by locale. -/
theorem claim_C4_description_grouping (ctx : AsXMLDataPriv)
    (dattrs : List (String × String)) (dchildren : List XNode) (k : String) :
    (lookupA (as_xmldata_parse_upstream_description_tag ctx
        (XNode.elem "description" dattrs dchildren)) k
      = if (descPartsFor ctx dchildren k).isEmpty then none
        else some (concatAll (descPartsFor ctx dchildren k)))
  ∧ (∀ (ext : AsExternals) (acc : CptParseAcc), ctx.mode = .upstream →
      lookupA (as_xmldata_process_component_child ext ctx acc
          (XNode.elem "description" dattrs dchildren)).cpt.descriptions k
        = match lookupA (as_xmldata_parse_upstream_description_tag ctx
            (XNode.elem "description" dattrs dchildren)).reverse k with
          | some v => some v
          | none => lookupA acc.cpt.descriptions k) := by
  constructor
  · unfold as_xmldata_parse_upstream_description_tag
    rw [show (XNode.elem "description" dattrs dchildren).children = dchildren from rfl,
      descGroup_fold_lookup ctx dchildren [] k]
    simp [lookupA]
  · intro ext acc hmode
    simp only [as_xmldata_process_component_child, XNode.isElem, XNode.name]
    simp [hmode, upstream_desc_to_cpt_lookup]

/-- Witness for C4 (amended) at a concrete upstream description with one
`<p>` child: the stored "C" entry starts with the prepended newline. -/
theorem claim_C4_witness :
    AsXMLDataPriv.mode {} = AsParserMode.upstream
  ∧ lookupA (as_xmldata_process_component_child ext0 {} { cpt := {} }
        (XNode.elem "description" []
          [XNode.elem "p" [] [XNode.text "hello"]])).cpt.descriptions "C"
      = some "\n<p>hello</p>" := by
  refine ⟨rfl, ?_⟩
  have h := (claim_C4_description_grouping {} []
    [XNode.elem "p" [] [XNode.text "hello"]] "C").2 ext0 { cpt := {} } rfl
  exact h.trans (by decide)

/-- C5: an `<image>` without width/height attributes reads both as 0; in
distro mode an image whose width or height is 0 is discarded (the
screenshot is unchanged), while in upstream mode the same image is kept
with width = height = 0. -/
theorem claim_C5_image_dimensions (ctx : AsXMLDataPriv) (scr : AsScreenshot)
    (na a : List (String × String)) (ics : List XNode) :
    (lookupA a "width" = none → imageDimOf (XNode.elem "image" a ics) "width" = 0)
  ∧ (ctx.mode = .distro →
      (imageDimOf (XNode.elem "image" a ics) "width" = 0 ∨
       imageDimOf (XNode.elem "image" a ics) "height" = 0) →
      as_xmldata_process_screenshot ctx
        (XNode.elem "screenshot" na [XNode.elem "image" a ics]) scr = scr)
  ∧ (ctx.mode = .upstream → lookupA a "width" = none → lookupA a "height" = none →
      ∃ img : AsImage,
        (as_xmldata_process_screenshot ctx
          (XNode.elem "screenshot" na [XNode.elem "image" a ics]) scr).images
          = scr.images ++ [img] ∧ img.width = 0 ∧ img.height = 0) := by
  refine ⟨?_, ?_, ?_⟩
  · intro h
    simp [imageDimOf, xmlGetProp, XNode.attrs, h]
  · intro hmode hdim
    simp only [as_xmldata_process_screenshot, XNode.children, List.foldl_cons,
      List.foldl_nil, XNode.isElem, XNode.name]
    simp only [hmode]
    simp
    intro h1 h2
    rcases hdim with h | h
    · exact absurd h h1
    · exact absurd h h2
  · intro hmode hw hh
    simp only [as_xmldata_process_screenshot, XNode.children, List.foldl_cons,
      List.foldl_nil, XNode.isElem, XNode.name]
    simp [hmode, imageDimOf, xmlGetProp, XNode.attrs, hw, hh]

/-- Witness for C5: the same attribute-less image is dropped by a
distro-mode context and kept with zero dimensions by an upstream one. -/
theorem claim_C5_witness :
    AsXMLDataPriv.mode { mode := AsParserMode.distro } = AsParserMode.distro
  ∧ as_xmldata_process_screenshot { mode := AsParserMode.distro }
      (XNode.elem "screenshot" []
        [XNode.elem "image" [] [XNode.text "http://example.org/i.png"]]) {} = {}
  ∧ (∃ img : AsImage,
      (as_xmldata_process_screenshot {}
        (XNode.elem "screenshot" []
          [XNode.elem "image" [] [XNode.text "http://example.org/i.png"]]) {}).images
        = AsScreenshot.images {} ++ [img] ∧ img.width = 0 ∧ img.height = 0) := by
  refine ⟨rfl, ?_, ?_⟩
  · exact (claim_C5_image_dimensions { mode := .distro } {} [] []
      [XNode.text "http://example.org/i.png"]).2.1 rfl (Or.inl (by decide))
  · exact (claim_C5_image_dimensions {} {} [] []
      [XNode.text "http://example.org/i.png"]).2.2 rfl rfl rfl

/-- C6: decoding a `<bundle>` element coerces every recognized `type`
string to the LIMBA kind before the (stripped) bundle id is stored,
while an unrecognized type string stores the id under the unknown
sentinel kind. -/
theorem claim_C6_bundle_coercion (ext : AsExternals) (ctx : AsXMLDataPriv)
    (acc : CptParseAcc) (a : List (String × String)) (s : String) :
    (ext.bundle_kind_from_string (lookupA a "type") ≠ .unknown →
      (as_xmldata_process_component_child ext ctx acc
          (XNode.elem "bundle" a [XNode.text s])).cpt.bundles
        = setAssoc acc.cpt.bundles .limba (g_strstrip s))
  ∧ (ext.bundle_kind_from_string (lookupA a "type") = .unknown →
      (as_xmldata_process_component_child ext ctx acc
          (XNode.elem "bundle" a [XNode.text s])).cpt.bundles
        = setAssoc acc.cpt.bundles .unknown (g_strstrip s)) := by
  constructor
  · intro h
    simp only [as_xmldata_process_component_child, XNode.isElem, XNode.name]
    simp [xmlGetProp, XNode.attrs, h, as_component_add_bundle_id,
      as_xmldata_get_node_value, xmlNodeGetContent, xmlContentList, String.append_empty]
  · intro h
    simp only [as_xmldata_process_component_child, XNode.isElem, XNode.name]
    simp [xmlGetProp, XNode.attrs, h, as_component_add_bundle_id,
      as_xmldata_get_node_value, xmlNodeGetContent, xmlContentList, String.append_empty]

/-- Witness for C6: a recognized "xdg-app" bundle type is stored as the
LIMBA kind, not as the parsed kind. -/
theorem claim_C6_witness :
    ext0.bundle_kind_from_string (lookupA [("type", "xdg-app")] "type") ≠ .unknown
  ∧ (as_xmldata_process_component_child ext0 {} { cpt := {} }
      (XNode.elem "bundle" [("type", "xdg-app")] [XNode.text "foo/bar/1.0"])).cpt.bundles
      = [(AsBundleKind.limba, "foo/bar/1.0")] := by
  refine ⟨by decide, ?_⟩
  have h := (claim_C6_bundle_coercion ext0 {} { cpt := {} } [("type", "xdg-app")]
    "foo/bar/1.0").1 (by decide)
  exact h.trans (by decide)

/-- C7: a `<firmware>` provides-child needs type "runtime" (yielding a
firmware-runtime item) or "flashed" (firmware-flashed); with the
attribute absent or unrecognized no item is added.  A `<dbus>` child
needs "system" (dbus-system) or "user"/"session" (dbus-user) and is
otherwise dropped silently. -/
theorem claim_C7_provides_typed_items (pa a : List (String × String)) (s : String)
    (cpt : AsComponent) :
    (lookupA a "type" = some "runtime" →
      as_xmldata_process_provides
          (XNode.elem "provides" pa [XNode.elem "firmware" a [XNode.text s]]) cpt
        = as_component_add_provided_item cpt .firmware_runtime s)
  ∧ (lookupA a "type" = some "flashed" →
      as_xmldata_process_provides
          (XNode.elem "provides" pa [XNode.elem "firmware" a [XNode.text s]]) cpt
        = as_component_add_provided_item cpt .firmware_flashed s)
  ∧ (lookupA a "type" = none →
      as_xmldata_process_provides
          (XNode.elem "provides" pa [XNode.elem "firmware" a [XNode.text s]]) cpt = cpt)
  ∧ (∀ t, lookupA a "type" = some t → t ≠ "runtime" → t ≠ "flashed" →
      as_xmldata_process_provides
          (XNode.elem "provides" pa [XNode.elem "firmware" a [XNode.text s]]) cpt = cpt)
  ∧ (lookupA a "type" = some "system" →
      as_xmldata_process_provides
          (XNode.elem "provides" pa [XNode.elem "dbus" a [XNode.text s]]) cpt
        = as_component_add_provided_item cpt .dbus_system s)
  ∧ (lookupA a "type" = some "user" →
      as_xmldata_process_provides
          (XNode.elem "provides" pa [XNode.elem "dbus" a [XNode.text s]]) cpt
        = as_component_add_provided_item cpt .dbus_user s)
  ∧ (lookupA a "type" = some "session" →
      as_xmldata_process_provides
          (XNode.elem "provides" pa [XNode.elem "dbus" a [XNode.text s]]) cpt
        = as_component_add_provided_item cpt .dbus_user s)
  ∧ (lookupA a "type" = none →
      as_xmldata_process_provides
          (XNode.elem "provides" pa [XNode.elem "dbus" a [XNode.text s]]) cpt = cpt)
  ∧ (∀ t, lookupA a "type" = some t → t ≠ "system" → t ≠ "user" → t ≠ "session" →
      as_xmldata_process_provides
          (XNode.elem "provides" pa [XNode.elem "dbus" a [XNode.text s]]) cpt = cpt) := by
  refine ⟨?_, ?_, ?_, ?_, ?_, ?_, ?_, ?_, ?_⟩ <;>
    first
    | (intro h
       simp only [as_xmldata_process_provides, XNode.children, List.foldl_cons,
         List.foldl_nil, XNode.isElem, XNode.name]
       simp [xmlGetProp, XNode.attrs, h, as_component_add_provided_item,
         as_xmldata_get_node_value, xmlNodeGetContent, xmlContentList, String.append_empty]
       done)
    | (intro t h h1 h2 h3
       simp only [as_xmldata_process_provides, XNode.children, List.foldl_cons,
         List.foldl_nil, XNode.isElem, XNode.name]
       simp [xmlGetProp, XNode.attrs, h, h1, h2, h3]
       done)
    | (intro t h h1 h2
       simp only [as_xmldata_process_provides, XNode.children, List.foldl_cons,
         List.foldl_nil, XNode.isElem, XNode.name]
       simp [xmlGetProp, XNode.attrs, h, h1, h2]
       done)

/-- Witness for C7: `<firmware type="runtime">x.bin</firmware>` yields a
firmware-runtime item, while `<firmware>x.bin</firmware>` yields none. -/
theorem claim_C7_witness :
    lookupA [("type", "runtime")] "type" = some "runtime"
  ∧ as_xmldata_process_provides
      (XNode.elem "provides" []
        [XNode.elem "firmware" [("type", "runtime")] [XNode.text "x.bin"]]) {}
      = as_component_add_provided_item {} .firmware_runtime "x.bin"
  ∧ as_xmldata_process_provides
      (XNode.elem "provides" [] [XNode.elem "firmware" [] [XNode.text "x.bin"]]) {} = {} := by
  refine ⟨by decide, ?_, ?_⟩
  · exact (claim_C7_provides_typed_items [] [("type", "runtime")] "x.bin" {}).1 (by decide)
  · exact (claim_C7_provides_typed_items [] [] "x.bin" {}).2.2.1 rfl

/-- C8: serializing an empty component list to distro XML yields no
output at all; a non-empty list yields a `<components>` root with a
version="0.8" attribute and an origin attribute whenever an origin is
configured on the context. -/
theorem claim_C8_serialize_distro (ext : AsExternals) (ctx : AsXMLDataPriv)
    (cpts : List AsComponent) :
    (cpts = [] → as_xmldata_serialize_to_distro ext ctx cpts = none)
  ∧ (∀ c cs, cpts = c :: cs →
      ∃ root : XNode, as_xmldata_serialize_to_distro ext ctx cpts = some root
        ∧ root.name = "components"
        ∧ xmlGetProp root "version" = some "0.8"
        ∧ (∀ o, ctx.origin = some o → xmlGetProp root "origin" = some o)) := by
  constructor
  · intro h; subst h; rfl
  · intro c cs h
    subst h
    refine ⟨_, rfl, rfl, rfl, ?_⟩
    intro o ho
    simp [xmlGetProp, XNode.attrs, lookupA, ho]

/-- Witness for C8: an empty list yields none; a one-component list with
origin "fedora" configured yields the attributed `<components>` root. -/
theorem claim_C8_witness :
    as_xmldata_serialize_to_distro ext0 { origin := some "fedora" } [] = none
  ∧ (∃ root : XNode,
      as_xmldata_serialize_to_distro ext0 { origin := some "fedora" } [{}] = some root
      ∧ root.name = "components"
      ∧ xmlGetProp root "version" = some "0.8"
      ∧ (∀ o, ({ origin := some "fedora" } : AsXMLDataPriv).origin = some o →
          xmlGetProp root "origin" = some o)) :=
  ⟨(claim_C8_serialize_distro ext0 { origin := some "fedora" } []).1 rfl,
   (claim_C8_serialize_distro ext0 { origin := some "fedora" } [{}]).2 {} [] rfl⟩

/-- C9 counterexample: the claim says that for an upstream parse a
document with no root element returns "no components" and is *not* an
error; the code sets the error "The XML document appears to be empty."
on exactly that input. -/
theorem claim_C9_counterexample :
    (as_xmldata_parse_upstream_data ext0 {} XmlInput.emptyDoc).2 ≠ none
  ∧ (as_xmldata_parse_upstream_data ext0 {} XmlInput.emptyDoc).2
      = some "The XML document appears to be empty." :=
  ⟨by decide, rfl⟩

/-- C9 (amended): NULL input data returns "no components" without an
error for BOTH the upstream and the distro parse; a parsed document with
no root element is a fatal error for both — the two dialects behave the
same on both conditions. -/
theorem claim_C9_empty_document (ext : AsExternals) (ctx : AsXMLDataPriv) :
    as_xmldata_parse_upstream_data ext ctx XmlInput.noData = (none, none)
  ∧ as_xmldata_parse_distro_data ext ctx XmlInput.noData = (none, none)
  ∧ (as_xmldata_parse_upstream_data ext ctx XmlInput.emptyDoc).1 = none
  ∧ (as_xmldata_parse_upstream_data ext ctx XmlInput.emptyDoc).2.isSome = true
  ∧ (as_xmldata_parse_distro_data ext ctx XmlInput.emptyDoc).1 = none
  ∧ (as_xmldata_parse_distro_data ext ctx XmlInput.emptyDoc).2.isSome = true :=
  ⟨rfl, rfl, rfl, rfl, rfl, rfl⟩

/-- C10: a release with a positive timestamp is serialized with a
raw-integer `timestamp` attribute in distro mode and with an ISO-8601
`date` attribute in upstream mode (never the other attribute); with
timestamp ≤ 0 neither attribute is emitted. -/
theorem claim_C10_release_time_attrs (ext : AsExternals) (ctx : AsXMLDataPriv)
    (release : AsRelease) :
    (release.timestamp > 0 → ctx.mode = .distro →
      xmlGetProp (as_xmldata_release_to_node ext ctx release) "timestamp"
        = some (toString release.timestamp)
      ∧ xmlGetProp (as_xmldata_release_to_node ext ctx release) "date" = none)
  ∧ (release.timestamp > 0 → ctx.mode = .upstream →
      xmlGetProp (as_xmldata_release_to_node ext ctx release) "date"
        = some (ext.time_val_to_iso8601 release.timestamp)
      ∧ xmlGetProp (as_xmldata_release_to_node ext ctx release) "timestamp" = none)
  ∧ (release.timestamp ≤ 0 →
      xmlGetProp (as_xmldata_release_to_node ext ctx release) "timestamp" = none
      ∧ xmlGetProp (as_xmldata_release_to_node ext ctx release) "date" = none) := by
  refine ⟨?_, ?_, ?_⟩
  · intro ht hmode
    constructor <;>
      (simp only [as_xmldata_release_to_node, xmlGetProp, XNode.attrs]
       by_cases hu : release.urgency = .unknown <;>
         simp [ht, hmode, hu, lookupA_append, lookupA])
  · intro ht hmode
    constructor <;>
      (simp only [as_xmldata_release_to_node, xmlGetProp, XNode.attrs]
       by_cases hu : release.urgency = .unknown <;>
         simp [ht, hmode, hu, lookupA_append, lookupA])
  · intro ht
    have ht' : ¬release.timestamp > 0 := not_lt.mpr ht
    constructor <;>
      (simp only [as_xmldata_release_to_node, xmlGetProp, XNode.attrs]
       by_cases hu : release.urgency = .unknown <;>
         simp [ht', hu, lookupA_append, lookupA])

/-- Witness for C10 at timestamp 1600000000: a distro context emits
timestamp="1600000000" and no date; an upstream context emits the
ISO-8601 date and no timestamp. -/
theorem claim_C10_witness :
    ({ timestamp := 1600000000 } : AsRelease).timestamp > 0
  ∧ (xmlGetProp (as_xmldata_release_to_node ext0 { mode := .distro }
        { timestamp := 1600000000 }) "timestamp" = some "1600000000"
     ∧ xmlGetProp (as_xmldata_release_to_node ext0 { mode := .distro }
        { timestamp := 1600000000 }) "date" = none)
  ∧ (xmlGetProp (as_xmldata_release_to_node ext0 {}
        { timestamp := 1600000000 }) "date" = some "1600000000Z"
     ∧ xmlGetProp (as_xmldata_release_to_node ext0 {}
        { timestamp := 1600000000 }) "timestamp" = none) := by
  refine ⟨by decide, ?_, ?_⟩
  · have h := (claim_C10_release_time_attrs ext0 { mode := .distro }
      { timestamp := 1600000000 }).1 (by decide) rfl
    exact ⟨h.1.trans (by decide), h.2⟩
  · have h := (claim_C10_release_time_attrs ext0 {}
      { timestamp := 1600000000 }).2.1 (by decide) rfl
    exact ⟨h.1.trans (by decide), h.2⟩
